import Mathlib

/-!
Verification of the express-api-backend authentication and user-management API.

The development shallowly embeds the TypeScript source:
the Prisma user store becomes a list of user records; the bcrypt
primitive becomes a nonce-parameterized hash (the nonce models the
per-call salt randomization); controllers and middleware become pure
state-passing functions over the store.  JavaScript falsiness is kept:
a test written as not-x in the source is true both for an absent field
and for an empty string.
-/

namespace ExpressApi

/-- A row of the Prisma User table (prisma/schema.prisma): id (primary key,
cuid), username, email (unique), password (bcrypt hash), optional salt
(present in the migration, never written by the code), optional
sessionToken. -/
structure User where
  id : String
  username : String
  email : String
  password : String
  salt : Option String
  sessionToken : Option String
deriving DecidableEq, Repr

/-- The persistent store: the list of user rows, in insertion order. -/
abbrev DB := List User

/-- JavaScript falsiness of an optional string field obtained by
destructuring a request body: not-x is true when the field is absent
(undefined) or the empty string. -/
def jsFalsy : Option String → Bool
  | none => true
  | some s => s == ""

/-- Model of bcrypt.hash(plaintext, 10): the nonce stands for the salt
bcrypt draws on each call, so two calls with different nonces give
different digests for the same plaintext. -/
def bcryptHash (plaintext : String) (nonce : Nat) : String :=
  "$2b$10$" ++ toString nonce ++ "$" ++ plaintext

/-- Model of bcrypt.compare(plaintext, digest): extract the payload the
digest carries past its prefix and salt field and compare it with the
plaintext, so a digest produced by bcryptHash verifies exactly against
the plaintext it hashed, whatever the nonce was. -/
def bcryptCompare (plaintext digest : String) : Bool :=
  (digest.data.take 7 == "$2b$10$".data) &&
    (((digest.data.drop 7).dropWhile (fun c => c != '$')).drop 1 == plaintext.data)

/-- db.user.findUnique(\x7b where: \x7b email \x7d \x7d): first row whose
email equals the key (the schema makes email unique, so first = only). -/
def findUniqueByEmail (db : DB) (email : String) : Option User :=
  db.find? (fun u => u.email == email)

/-- db.user.findUnique(\x7b where: \x7b id \x7d \x7d). -/
def findUniqueById (db : DB) (id : String) : Option User :=
  db.find? (fun u => u.id == id)

/-- db.user.findFirst(\x7b where: \x7b sessionToken \x7d \x7d): first row
whose stored sessionToken equals the given value. -/
def findFirstBySessionToken (db : DB) (tok : String) : Option User :=
  db.find? (fun u => u.sessionToken == some tok)

/-- db.user.update(\x7b where: \x7b id \x7d, data \x7d): rewrite the row
with the given id, returning the updated row and the new store; none when
no row has the id (Prisma throws, which the controllers catch). -/
def updateById (id : String) (f : User → User) : DB → Option (User × DB)
  | [] => none
  | u :: rest =>
    if u.id == id then some (f u, f u :: rest)
    else (updateById id f rest).map (fun p => (p.1, u :: p.2))

/-- db.user.delete(\x7b where: \x7b id \x7d \x7d): remove the row with the
given id, returning the removed row and the new store; none when no row
has the id (Prisma throws, which the controller catches). -/
def deleteById (id : String) : DB → Option (User × DB)
  | [] => none
  | u :: rest =>
    if u.id == id then some (u, rest)
    else (deleteById id rest).map (fun p => (p.1, u :: p.2))

/-- An HTTP outcome of a controller: res.status(200).json(body), or
res.sendStatus(code). -/
inductive HttpResult (α : Type) where
  | ok (body : α)
  | sendStatus (code : Nat)
deriving DecidableEq, Repr

/-- Outcome of a middleware: res.sendStatus(code), or next() after
merging the found user into the request as its identity. -/
inductive GateResult where
  | sendStatus (code : Nat)
  | next (identity : User)
deriving DecidableEq, Repr

/-- Outcome of the ownership middleware: res.sendStatus(code) or next()
(this middleware attaches nothing). -/
inductive StepResult where
  | sendStatus (code : Nat)
  | next
deriving DecidableEq, Repr

/-- The cookies of an inbound request: req.cookies as a map from cookie
name to value. -/
abbrev CookieJar := String → Option String

/-- The store access used by the authentication middleware, as the
controller sees it: the awaited findFirst call either returns its result
or raises (error), which the surrounding catch turns into 400. -/
abbrev TokenLookup := String → Except Unit (Option User)

/-- A store access that completes normally against the given store. -/
def okStore (db : DB) : TokenLookup :=
  fun tok => Except.ok (findFirstBySessionToken db tok)

/-- A store access that raises (any unexpected storage error). -/
def failStore : TokenLookup :=
  fun _ => Except.error ()

/-- src/middleware/index.ts isAuthenticated: read the EXPRESS-API-AUTH
cookie; falsy cookie gives 403; look the value up by sessionToken
equality; no row gives 403; otherwise merge the row as the request
identity and call next(); a raised storage error gives 400. -/
def isAuthenticated (cookies : CookieJar) (store : TokenLookup) : GateResult :=
  match cookies "EXPRESS-API-AUTH" with
  | none => GateResult.sendStatus 403
  | some sessionToken =>
    if sessionToken == "" then GateResult.sendStatus 403
    else
      match store sessionToken with
      | Except.error _ => GateResult.sendStatus 400
      | Except.ok none => GateResult.sendStatus 403
      | Except.ok (some existingUser) => GateResult.next existingUser

/-- src/middleware/index.ts isOwnAccount: read identity.id from the
request (undefined when the identity was never attached); falsy gives
403; a string mismatch with the path parameter id gives 403; otherwise
next().  The function takes no store: the gate performs no storage
access. -/
def isOwnAccount (id : String) (identity : Option User) : StepResult :=
  let currentUserId := identity.map (fun u => u.id)
  match currentUserId with
  | none => StepResult.sendStatus 403
  | some cid =>
    if cid == "" then StepResult.sendStatus 403
    else if cid != id then StepResult.sendStatus 403
    else StepResult.next

/-- Body of POST /auth/register. -/
structure RegisterBody where
  email : Option String
  password : Option String
  username : Option String
deriving DecidableEq, Repr

/-- controllers/auth.ts register: 400 when a field is falsy; 409 when a
row already has the email; otherwise create a row holding the password
hash (freshId models the cuid Prisma assigns; nonce models the salt of
the bcrypt call) and return it with status 200. -/
def register (body : RegisterBody) (freshId : String) (nonce : Nat) (db : DB) :
    HttpResult User × DB :=
  if jsFalsy body.email || jsFalsy body.password || jsFalsy body.username then
    (HttpResult.sendStatus 400, db)
  else
    let email := body.email.getD ""
    let password := body.password.getD ""
    let username := body.username.getD ""
    match findUniqueByEmail db email with
    | some _ => (HttpResult.sendStatus 409, db)
    | none =>
      let hashedPassword := bcryptHash password nonce
      let newUser : User :=
        { id := freshId, username := username, email := email,
          password := hashedPassword, salt := none, sessionToken := none }
      (HttpResult.ok newUser, db ++ [newUser])

/-- Body of POST /auth/login. -/
structure LoginBody where
  email : Option String
  password : Option String
deriving DecidableEq, Repr

/-- The record login returns: the updated row restricted by the Prisma
select to id, email, username, sessionToken. -/
structure SafeUser where
  id : String
  email : String
  username : String
  sessionToken : Option String
deriving DecidableEq, Repr

/-- A successful login response: the JSON body plus the cookie set by
res.cookie(name, value). -/
structure LoginResponse where
  user : SafeUser
  cookieName : String
  cookieValue : Option String
deriving DecidableEq, Repr

/-- controllers/auth.ts login: 400 when a field is falsy; 401 when no row
has the email; 401 when bcrypt.compare rejects the password; otherwise
hash the id into a fresh session token, persist it on the row, set the
EXPRESS-API-AUTH cookie to it and return the selected fields with
status 200. -/
def login (body : LoginBody) (nonce : Nat) (db : DB) :
    HttpResult LoginResponse × DB :=
  if jsFalsy body.email || jsFalsy body.password then
    (HttpResult.sendStatus 400, db)
  else
    let email := body.email.getD ""
    let password := body.password.getD ""
    match findUniqueByEmail db email with
    | none => (HttpResult.sendStatus 401, db)
    | some existingUser =>
      if !(bcryptCompare password existingUser.password) then
        (HttpResult.sendStatus 401, db)
      else
        let sessionToken := bcryptHash existingUser.id nonce
        match updateById existingUser.id
            (fun u => { u with sessionToken := some sessionToken }) db with
        | none => (HttpResult.sendStatus 400, db)
        | some (updatedUser, db2) =>
          let safe : SafeUser :=
            { id := updatedUser.id, email := updatedUser.email,
              username := updatedUser.username,
              sessionToken := updatedUser.sessionToken }
          (HttpResult.ok
            { user := safe, cookieName := "EXPRESS-API-AUTH",
              cookieValue := updatedUser.sessionToken }, db2)

/-- controllers/users.ts updateUser: 400 when username is falsy; 400 when
no row has the path id; otherwise overwrite username and return the full
updated row with status 200. -/
def updateUser (id : String) (bodyUsername : Option String) (db : DB) :
    HttpResult User × DB :=
  if jsFalsy bodyUsername then (HttpResult.sendStatus 400, db)
  else
    let username := bodyUsername.getD ""
    match findUniqueById db id with
    | none => (HttpResult.sendStatus 400, db)
    | some _ =>
      match updateById id (fun u => { u with username := username }) db with
      | none => (HttpResult.sendStatus 400, db)
      | some (updatedUser, db2) => (HttpResult.ok updatedUser, db2)

/-- controllers/users.ts deleteUser: remove the row with the path id and
return it with status 200; the Prisma throw when the id is absent is
caught and becomes 400. -/
def deleteUser (id : String) (db : DB) : HttpResult User × DB :=
  match deleteById id db with
  | none => (HttpResult.sendStatus 400, db)
  | some (deleteduser, db2) => (HttpResult.ok deleteduser, db2)

/-- The cookie jar a client holds after receiving a login response: the
one Set-Cookie of the response, echoed back by name. -/
def setCookieJar (r : LoginResponse) : CookieJar :=
  fun name => if name == r.cookieName then r.cookieValue else none

/-! ### Helper lemmas about the store operations -/

/-- find? over an append whose left part all fails the predicate and
whose head of the right part passes it returns that head. -/
theorem find?_append_first {α : Type} (p : α → Bool) (pre post : List α) (u : α)
    (hpre : ∀ v ∈ pre, p v = false) (hu : p u = true) :
    (pre ++ u :: post).find? p = some u := by
  induction pre with
  | nil => simpa using List.find?_cons_of_pos post hu
  | cons a l ih =>
    have ha : ¬ p a = true := by
      simp [hpre a (List.mem_cons_self a l)]
    rw [List.cons_append, List.find?_cons_of_neg _ ha]
    exact ih (fun v hv => hpre v (List.mem_cons_of_mem a hv))

/-- updateById rewrites exactly the first row carrying the id. -/
theorem updateById_append (id : String) (f : User → User) (pre post : DB) (u : User)
    (hpre : ∀ v ∈ pre, v.id ≠ id) (hu : u.id = id) :
    updateById id f (pre ++ u :: post) = some (f u, pre ++ f u :: post) := by
  induction pre with
  | nil => simp [updateById, hu]
  | cons a l ih =>
    have ha : (a.id == id) = false := by
      simpa using hpre a (List.mem_cons_self a l)
    have ih2 := ih (fun v hv => hpre v (List.mem_cons_of_mem a hv))
    simp [updateById, ha, ih2]

/-- deleteById removes exactly the first row carrying the id. -/
theorem deleteById_append (id : String) (pre post : DB) (u : User)
    (hpre : ∀ v ∈ pre, v.id ≠ id) (hu : u.id = id) :
    deleteById id (pre ++ u :: post) = some (u, pre ++ post) := by
  induction pre with
  | nil => simp [deleteById, hu]
  | cons a l ih =>
    have ha : (a.id == id) = false := by
      simpa using hpre a (List.mem_cons_self a l)
    have ih2 := ih (fun v hv => hpre v (List.mem_cons_of_mem a hv))
    simp [deleteById, ha, ih2]

/-- deleteById finds nothing when no row carries the id. -/
theorem deleteById_eq_none (id : String) (db : DB)
    (h : ∀ v ∈ db, v.id ≠ id) : deleteById id db = none := by
  induction db with
  | nil => rfl
  | cons a l ih =>
    have ha : (a.id == id) = false := by
      simpa using h a (List.mem_cons_self a l)
    have ih2 := ih (fun v hv => h v (List.mem_cons_of_mem a hv))
    simp [deleteById, ha, ih2]

/-- A digest produced by the hash primitive is never the empty string, so
a session token set by login never trips the falsiness test of the
authentication middleware. -/
theorem bcryptHash_ne_empty (p : String) (n : Nat) : bcryptHash p n ≠ "" := by
  intro h
  have h2 := congrArg String.length h
  simp only [bcryptHash, String.length_append] at h2
  have e1 : "$2b$10$".length = 7 := by decide
  have e2 : "$".length = 1 := by decide
  have e3 : "".length = 0 := by decide
  rw [e1, e2, e3] at h2
  omega

/-- Core computation of the login success path: when the body carries a
non-falsy email and password, the first row with that email is u, the
password verifies against the stored hash, and no earlier row shares the
id of u, the controller hashes the id of u into a token, persists it on
that row and answers 200 with the selected fields and the cookie. -/
theorem login_success_eq (e p : String) (n : Nat) (pre post : DB) (u : User)
    (he : e ≠ "") (hp : p ≠ "")
    (hpre : ∀ v ∈ pre, v.email ≠ e) (hue : u.email = e)
    (hpreid : ∀ v ∈ pre, v.id ≠ u.id)
    (hverify : bcryptCompare p u.password = true) :
    login { email := some e, password := some p } n (pre ++ u :: post) =
      (HttpResult.ok
        { user :=
            { id := u.id, email := u.email, username := u.username,
              sessionToken := some (bcryptHash u.id n) },
          cookieName := "EXPRESS-API-AUTH",
          cookieValue := some (bcryptHash u.id n) },
       pre ++ { u with sessionToken := some (bcryptHash u.id n) } :: post) := by
  have hfind : findUniqueByEmail (pre ++ u :: post) e = some u := by
    refine find?_append_first _ pre post u (fun v hv => ?_) (by simp [hue])
    simp [hpre v hv]
  have hupd :
      updateById u.id (fun v => { v with sessionToken := some (bcryptHash u.id n) })
        (pre ++ u :: post) =
      some ({ u with sessionToken := some (bcryptHash u.id n) },
            pre ++ { u with sessionToken := some (bcryptHash u.id n) } :: post) :=
    updateById_append u.id _ pre post u hpreid rfl
  simp [login, jsFalsy, he, hp, hfind, hverify, hupd]

/-! ### Sample data for concrete instantiations -/

/-- A registered user who has never logged in. -/
def alice : User :=
  { id := "alice-id", username := "alice", email := "a@x.com",
    password := bcryptHash "pw" 3, salt := none, sessionToken := none }

/-- A registered user holding a session token from a past login. -/
def bob : User :=
  { id := "bob-id", username := "bob", email := "b@x.com",
    password := bcryptHash "pw2" 4, salt := none,
    sessionToken := some (bcryptHash "bob-id" 9) }

/-- A request carrying no cookies. -/
def jarEmpty : CookieJar := fun _ => none

/-- A request carrying one EXPRESS-API-AUTH cookie. -/
def jarWith (v : String) : CookieJar :=
  fun name => if name == "EXPRESS-API-AUTH" then some v else none

/-! ### Claim theorems -/

/-- C1: Authentication Gate: a request without the session cookie fails
with 403; a request whose cookie value equals no stored sessionToken
fails with 403; otherwise the matching record becomes the request
identity and the request proceeds; a raised storage error yields 400.
(A present-but-empty cookie value is treated as absent by the falsiness
test of the source and also yields 403.) -/
theorem isAuthenticated_gate_spec (cookies : CookieJar) (db : DB) (tok : String) (u : User) :
    (cookies "EXPRESS-API-AUTH" = none →
      isAuthenticated cookies (okStore db) = GateResult.sendStatus 403) ∧
    (cookies "EXPRESS-API-AUTH" = some tok → tok ≠ "" →
      findFirstBySessionToken db tok = none →
      isAuthenticated cookies (okStore db) = GateResult.sendStatus 403) ∧
    (cookies "EXPRESS-API-AUTH" = some tok → tok ≠ "" →
      findFirstBySessionToken db tok = some u →
      isAuthenticated cookies (okStore db) = GateResult.next u) ∧
    (cookies "EXPRESS-API-AUTH" = some tok → tok ≠ "" →
      isAuthenticated cookies failStore = GateResult.sendStatus 400) := by
  refine ⟨fun h => ?_, fun h ht hf => ?_, fun h ht hf => ?_, fun h ht => ?_⟩
  · simp [isAuthenticated, h]
  · simp [isAuthenticated, okStore, h, ht, hf]
  · simp [isAuthenticated, okStore, h, ht, hf]
  · simp [isAuthenticated, failStore, h, ht]

/-- C1 witness: the four branches at concrete requests against a store
holding one user with a stored token. -/
theorem isAuthenticated_gate_spec_witness :
    isAuthenticated jarEmpty (okStore [bob]) = GateResult.sendStatus 403 ∧
    isAuthenticated (jarWith "zzz") (okStore [bob]) = GateResult.sendStatus 403 ∧
    isAuthenticated (jarWith (bcryptHash "bob-id" 9)) (okStore [bob]) =
      GateResult.next bob ∧
    isAuthenticated (jarWith "zzz") failStore = GateResult.sendStatus 400 :=
  ⟨(isAuthenticated_gate_spec jarEmpty [bob] "" bob).1 rfl,
   (isAuthenticated_gate_spec (jarWith "zzz") [bob] "zzz" bob).2.1
     (by decide) (by decide) (by decide),
   (isAuthenticated_gate_spec (jarWith (bcryptHash "bob-id" 9)) [bob]
       (bcryptHash "bob-id" 9) bob).2.2.1 (by decide) (by decide) (by decide),
   (isAuthenticated_gate_spec (jarWith "zzz") [bob] "zzz" bob).2.2.2
     (by decide) (by decide)⟩

/-- C2: Ownership Gate: with no identity attached the gate fails with
403; when the path id differs from the identity id it fails with 403;
when they agree (on the nonempty ids the store assigns) it proceeds.
The gate takes no store argument: by its very type it performs no
storage access in any branch. -/
theorem isOwnAccount_gate_spec (id : String) (u : User) :
    (isOwnAccount id none = StepResult.sendStatus 403) ∧
    (u.id ≠ id → isOwnAccount id (some u) = StepResult.sendStatus 403) ∧
    (u.id = id → u.id ≠ "" → isOwnAccount id (some u) = StepResult.next) := by
  refine ⟨rfl, fun h => ?_, fun h hne => ?_⟩
  · by_cases hz : u.id = ""
    · simp [isOwnAccount, hz]
    · simp [isOwnAccount, hz, h]
  · have hne2 : id ≠ "" := h ▸ hne
    simp [isOwnAccount, h, hne2]

/-- C2 witness: the three branches at concrete identities and path ids. -/
theorem isOwnAccount_gate_spec_witness :
    isOwnAccount "alice-id" none = StepResult.sendStatus 403 ∧
    isOwnAccount "bob-id" (some alice) = StepResult.sendStatus 403 ∧
    isOwnAccount "alice-id" (some alice) = StepResult.next :=
  ⟨(isOwnAccount_gate_spec "alice-id" alice).1,
   (isOwnAccount_gate_spec "bob-id" alice).2.1 (by decide),
   (isOwnAccount_gate_spec "alice-id" alice).2.2 (by decide) (by decide)⟩

/-- C3: Register: a missing email, password or username yields 400;
otherwise an existing record with the email yields 409; otherwise a
record holding the password hash and no sessionToken is created,
appended to the store and returned with status 200. -/
theorem register_spec (body : RegisterBody) (freshId : String) (nonce : Nat)
    (db : DB) (e p un : String) (v : User) :
    ((body.email = none ∨ body.password = none ∨ body.username = none) →
      register body freshId nonce db = (HttpResult.sendStatus 400, db)) ∧
    (body = { email := some e, password := some p, username := some un } →
      e ≠ "" → p ≠ "" → un ≠ "" →
      findUniqueByEmail db e = some v →
      register body freshId nonce db = (HttpResult.sendStatus 409, db)) ∧
    (body = { email := some e, password := some p, username := some un } →
      e ≠ "" → p ≠ "" → un ≠ "" →
      findUniqueByEmail db e = none →
      register body freshId nonce db =
        (HttpResult.ok
          { id := freshId, username := un, email := e,
            password := bcryptHash p nonce, salt := none, sessionToken := none },
         db ++ [{ id := freshId, username := un, email := e,
                  password := bcryptHash p nonce, salt := none,
                  sessionToken := none }])) := by
  refine ⟨fun h => ?_, fun hb he hp hun hf => ?_, fun hb he hp hun hf => ?_⟩
  · rcases h with h | h | h <;> simp [register, jsFalsy, h]
  · subst hb; simp [register, jsFalsy, he, hp, hun, hf]
  · subst hb; simp [register, jsFalsy, he, hp, hun, hf]

/-- C3 witness: the three branches at concrete registration requests. -/
theorem register_spec_witness :
    register { email := none, password := some "pw", username := some "al" }
        "id9" 7 [] = (HttpResult.sendStatus 400, []) ∧
    register { email := some "a@x.com", password := some "pw", username := some "al" }
        "id9" 7 [alice] = (HttpResult.sendStatus 409, [alice]) ∧
    register { email := some "c@x.com", password := some "cpw", username := some "carol" }
        "carol-id" 7 [alice] =
      (HttpResult.ok
        { id := "carol-id", username := "carol", email := "c@x.com",
          password := bcryptHash "cpw" 7, salt := none, sessionToken := none },
       [alice,
        { id := "carol-id", username := "carol", email := "c@x.com",
          password := bcryptHash "cpw" 7, salt := none, sessionToken := none }]) :=
  ⟨(register_spec { email := none, password := some "pw", username := some "al" }
      "id9" 7 [] "x" "x" "x" alice).1 (Or.inl rfl),
   (register_spec { email := some "a@x.com", password := some "pw", username := some "al" }
      "id9" 7 [alice] "a@x.com" "pw" "al" alice).2.1 rfl
      (by decide) (by decide) (by decide) (by decide),
   (register_spec { email := some "c@x.com", password := some "cpw", username := some "carol" }
      "carol-id" 7 [alice] "c@x.com" "cpw" "carol" alice).2.2 rfl
      (by decide) (by decide) (by decide) (by decide)⟩

/-- C4: Login failure paths: a missing email or password yields 400; an
email no record holds yields 401; a record whose stored hash rejects the
password also yields 401 — the same status in both failure cases, so a
caller cannot tell an unknown email from a wrong password. -/
theorem login_failure_spec (body : LoginBody) (nonce : Nat) (db : DB)
    (e p : String) (u : User) :
    ((body.email = none ∨ body.password = none) →
      login body nonce db = (HttpResult.sendStatus 400, db)) ∧
    (body = { email := some e, password := some p } →
      e ≠ "" → p ≠ "" →
      findUniqueByEmail db e = none →
      login body nonce db = (HttpResult.sendStatus 401, db)) ∧
    (body = { email := some e, password := some p } →
      e ≠ "" → p ≠ "" →
      findUniqueByEmail db e = some u →
      bcryptCompare p u.password = false →
      login body nonce db = (HttpResult.sendStatus 401, db)) := by
  refine ⟨fun h => ?_, fun hb he hp hf => ?_, fun hb he hp hf hv => ?_⟩
  · rcases h with h | h <;> simp [login, jsFalsy, h]
  · subst hb; simp [login, jsFalsy, he, hp, hf]
  · subst hb; simp [login, jsFalsy, he, hp, hf, hv]

/-- C4 witness: the three failure branches at concrete login requests
against a store holding one user, wrong password included. -/
theorem login_failure_spec_witness :
    login { email := none, password := some "pw" } 5 [alice] =
      (HttpResult.sendStatus 400, [alice]) ∧
    login { email := some "nobody@x.com", password := some "pw" } 5 [alice] =
      (HttpResult.sendStatus 401, [alice]) ∧
    login { email := some "a@x.com", password := some "wrong" } 5 [alice] =
      (HttpResult.sendStatus 401, [alice]) :=
  ⟨(login_failure_spec { email := none, password := some "pw" } 5 [alice]
      "x" "x" alice).1 (Or.inl rfl),
   (login_failure_spec { email := some "nobody@x.com", password := some "pw" } 5 [alice]
      "nobody@x.com" "pw" alice).2.1 rfl (by decide) (by decide) (by decide),
   (login_failure_spec { email := some "a@x.com", password := some "wrong" } 5 [alice]
      "a@x.com" "wrong" alice).2.2 rfl (by decide) (by decide) (by decide) (by decide)⟩

/-- C5: Login success: with a stored email and a verifying password, the
controller mints the token by hashing the id of the user, persists it on
that record in place of any prior sessionToken, sets the session cookie
to it, and answers 200 with exactly the fields id, email, username,
sessionToken, the returned sessionToken equal to the cookie value. -/
theorem login_success_spec (e p : String) (n : Nat) (pre post : DB) (u : User)
    (he : e ≠ "") (hp : p ≠ "")
    (hpre : ∀ v ∈ pre, v.email ≠ e) (hue : u.email = e)
    (hpreid : ∀ v ∈ pre, v.id ≠ u.id)
    (hverify : bcryptCompare p u.password = true) :
    login { email := some e, password := some p } n (pre ++ u :: post) =
      (HttpResult.ok
        { user :=
            { id := u.id, email := u.email, username := u.username,
              sessionToken := some (bcryptHash u.id n) },
          cookieName := "EXPRESS-API-AUTH",
          cookieValue := some (bcryptHash u.id n) },
       pre ++ { u with sessionToken := some (bcryptHash u.id n) } :: post) :=
  login_success_eq e p n pre post u he hp hpre hue hpreid hverify

/-- C5 witness: a concrete successful login against a two-user store,
the logging-in user second so that the frame over the first is visible. -/
theorem login_success_spec_witness :
    login { email := some "a@x.com", password := some "pw" } 11 ([bob] ++ alice :: []) =
      (HttpResult.ok
        { user :=
            { id := alice.id, email := alice.email, username := alice.username,
              sessionToken := some (bcryptHash alice.id 11) },
          cookieName := "EXPRESS-API-AUTH",
          cookieValue := some (bcryptHash alice.id 11) },
       [bob] ++ { alice with sessionToken := some (bcryptHash alice.id 11) } :: []) :=
  login_success_spec "a@x.com" "pw" 11 [bob] [] alice
    (by decide) (by decide) (by decide) (by decide) (by decide) (by decide)

/-- C6: Login/gate round-trip: after a successful login stored token S
and set the cookie to S, a request echoing that cookie passes the
authentication middleware and resolves to the same user, provided no
other stored record holds S; the cookie name the gate reads is the one
login wrote, and the gate verifies by equality lookup of the stored
token, never by recomputing the hash. -/
theorem login_then_gate_roundTrip (e p : String) (n : Nat) (pre post : DB) (u : User)
    (he : e ≠ "") (hp : p ≠ "")
    (hpre : ∀ v ∈ pre, v.email ≠ e) (hue : u.email = e)
    (hpreid : ∀ v ∈ pre, v.id ≠ u.id)
    (hverify : bcryptCompare p u.password = true)
    (hnopre : ∀ v ∈ pre, v.sessionToken ≠ some (bcryptHash u.id n))
    (_hnopost : ∀ v ∈ post, v.sessionToken ≠ some (bcryptHash u.id n)) :
    ∃ (resp : LoginResponse) (db2 : DB),
      login { email := some e, password := some p } n (pre ++ u :: post) =
        (HttpResult.ok resp, db2) ∧
      resp.cookieName = "EXPRESS-API-AUTH" ∧
      resp.cookieValue = some (bcryptHash u.id n) ∧
      isAuthenticated (setCookieJar resp) (okStore db2) =
        GateResult.next { u with sessionToken := some (bcryptHash u.id n) } := by
  refine ⟨_, _, login_success_eq e p n pre post u he hp hpre hue hpreid hverify,
    rfl, rfl, ?_⟩
  have hfind :
      findFirstBySessionToken
        (pre ++ { u with sessionToken := some (bcryptHash u.id n) } :: post)
        (bcryptHash u.id n) =
      some { u with sessionToken := some (bcryptHash u.id n) } := by
    refine find?_append_first _ pre post _ (fun v hv => ?_) (by simp)
    simp [hnopre v hv]
  have hne := bcryptHash_ne_empty u.id n
  simp [isAuthenticated, setCookieJar, okStore, hne, hfind]

/-- C6 witness: the round trip at a concrete login, with another
token-holding user first in the store. -/
theorem login_then_gate_roundTrip_witness :
    ∃ (resp : LoginResponse) (db2 : DB),
      login { email := some "a@x.com", password := some "pw" } 11 ([bob] ++ alice :: []) =
        (HttpResult.ok resp, db2) ∧
      resp.cookieName = "EXPRESS-API-AUTH" ∧
      resp.cookieValue = some (bcryptHash alice.id 11) ∧
      isAuthenticated (setCookieJar resp) (okStore db2) =
        GateResult.next { alice with sessionToken := some (bcryptHash alice.id 11) } :=
  login_then_gate_roundTrip "a@x.com" "pw" 11 [bob] [] alice
    (by decide) (by decide) (by decide) (by decide) (by decide) (by decide)
    (by decide) (by decide)

/-- C7: Registration conflict atomicity: when some stored user already
holds the email, a well-formed second registration with that email
answers 409 and returns the store exactly as it was, every field of
every record included. -/
theorem register_conflict_preserves_store (db : DB) (w : User)
    (e p un freshId : String) (nonce : Nat)
    (hw : w ∈ db) (hwe : w.email = e)
    (he : e ≠ "") (hp : p ≠ "") (hun : un ≠ "") :
    register { email := some e, password := some p, username := some un }
      freshId nonce db = (HttpResult.sendStatus 409, db) := by
  have hsome : (findUniqueByEmail db e).isSome := by
    rw [findUniqueByEmail, List.find?_isSome]
    exact ⟨w, hw, by simp [hwe]⟩
  obtain ⟨v, hv⟩ := Option.isSome_iff_exists.mp hsome
  simp [register, jsFalsy, he, hp, hun, hv]

/-- C7 witness: re-registering the stored email of alice leaves the
one-user store untouched and answers 409. -/
theorem register_conflict_preserves_store_witness :
    register { email := some "a@x.com", password := some "other",
               username := some "al2" } "id17" 8 [alice] =
      (HttpResult.sendStatus 409, [alice]) :=
  register_conflict_preserves_store [alice] alice "a@x.com" "other" "al2" "id17" 8
    (by decide) (by decide) (by decide) (by decide) (by decide)

/-- C8: Update: a missing username yields 400; a target id no record
holds yields 400; otherwise exactly the username of the target record is
overwritten and the full updated record, password hash and sessionToken
included, is returned with status 200. -/
theorem updateUser_spec (id : String) (db : DB) (bodyUsername : Option String)
    (un : String) (pre post : DB) (u : User) :
    (bodyUsername = none →
      updateUser id bodyUsername db = (HttpResult.sendStatus 400, db)) ∧
    ((∀ v ∈ db, v.id ≠ id) → un ≠ "" →
      updateUser id (some un) db = (HttpResult.sendStatus 400, db)) ∧
    (db = pre ++ u :: post → (∀ v ∈ pre, v.id ≠ id) → u.id = id → un ≠ "" →
      updateUser id (some un) db =
        (HttpResult.ok { u with username := un },
         pre ++ { u with username := un } :: post)) := by
  refine ⟨fun h => ?_, fun h hun => ?_, fun hdb hpre hu hun => ?_⟩
  · simp [updateUser, jsFalsy, h]
  · have hnone : findUniqueById db id = none := by
      rw [findUniqueById, List.find?_eq_none]
      intro x hx
      simp [h x hx]
    simp [updateUser, jsFalsy, hun, hnone]
  · subst hdb
    have hfind : findUniqueById (pre ++ u :: post) id = some u := by
      refine find?_append_first _ pre post u (fun v hv => ?_) (by simp [hu])
      simp [hpre v hv]
    have hupd := updateById_append id (fun v => { v with username := un })
      pre post u hpre hu
    simp [updateUser, jsFalsy, hun, hfind, hupd]

/-- C8 witness: the three branches at a concrete two-user store, the
target second so that the untouched first record is visible. -/
theorem updateUser_spec_witness :
    updateUser "alice-id" none [bob, alice] =
      (HttpResult.sendStatus 400, [bob, alice]) ∧
    updateUser "ghost-id" (some "newname") [bob, alice] =
      (HttpResult.sendStatus 400, [bob, alice]) ∧
    updateUser "alice-id" (some "newname") ([bob] ++ alice :: []) =
      (HttpResult.ok { alice with username := "newname" },
       [bob] ++ { alice with username := "newname" } :: []) :=
  ⟨(updateUser_spec "alice-id" [bob, alice] none "x" [] [] alice).1 rfl,
   (updateUser_spec "ghost-id" [bob, alice] (some "newname") "newname" [] [] alice).2.1
     (by decide) (by decide),
   (updateUser_spec "alice-id" ([bob] ++ alice :: []) (some "newname") "newname"
     [bob] [] alice).2.2 rfl (by decide) (by decide) (by decide)⟩

/-- C9: Delete: when a record holds the target id it is removed and its
state before deletion is returned with status 200; when none does, the
answer is 400, no distinct not-found status existing in this API. -/
theorem deleteUser_spec (id : String) (db pre post : DB) (u : User) :
    (db = pre ++ u :: post → (∀ v ∈ pre, v.id ≠ id) → u.id = id →
      deleteUser id db = (HttpResult.ok u, pre ++ post)) ∧
    ((∀ v ∈ db, v.id ≠ id) →
      deleteUser id db = (HttpResult.sendStatus 400, db)) := by
  refine ⟨fun hdb hpre hu => ?_, fun h => ?_⟩
  · subst hdb
    have hdel := deleteById_append id pre post u hpre hu
    simp [deleteUser, hdel]
  · have hdel := deleteById_eq_none id db h
    simp [deleteUser, hdel]

/-- C9 witness: deleting alice out of a two-user store returns her prior
record and keeps bob; deleting an unknown id answers 400. -/
theorem deleteUser_spec_witness :
    deleteUser "alice-id" ([bob] ++ alice :: []) = (HttpResult.ok alice, [bob] ++ []) ∧
    deleteUser "ghost-id" [bob, alice] = (HttpResult.sendStatus 400, [bob, alice]) :=
  ⟨(deleteUser_spec "alice-id" ([bob] ++ alice :: []) [bob] [] alice).1 rfl
     (by decide) (by decide),
   (deleteUser_spec "ghost-id" [bob, alice] [] [] alice).2 (by decide)⟩

/-- C10: Frame property of a successful login: only the sessionToken
field of the record of the authenticated user changes; its id, email,
username, password hash and salt are untouched, and the records before
and after it in the store are returned verbatim. -/
theorem login_frame_effect (e p : String) (n : Nat) (pre post : DB) (u : User)
    (he : e ≠ "") (hp : p ≠ "")
    (hpre : ∀ v ∈ pre, v.email ≠ e) (hue : u.email = e)
    (hpreid : ∀ v ∈ pre, v.id ≠ u.id)
    (hverify : bcryptCompare p u.password = true) :
    ∃ u2 : User,
      (login { email := some e, password := some p } n (pre ++ u :: post)).2 =
        pre ++ u2 :: post ∧
      u2.id = u.id ∧ u2.username = u.username ∧ u2.email = u.email ∧
      u2.password = u.password ∧ u2.salt = u.salt := by
  refine ⟨{ u with sessionToken := some (bcryptHash u.id n) }, ?_, rfl, rfl, rfl, rfl, rfl⟩
  rw [login_success_eq e p n pre post u he hp hpre hue hpreid hverify]

/-- C10 witness: the frame at a concrete login into a two-user store. -/
theorem login_frame_effect_witness :
    ∃ u2 : User,
      (login { email := some "a@x.com", password := some "pw" } 11
          ([bob] ++ alice :: [])).2 = [bob] ++ u2 :: [] ∧
      u2.id = alice.id ∧ u2.username = alice.username ∧ u2.email = alice.email ∧
      u2.password = alice.password ∧ u2.salt = alice.salt :=
  login_frame_effect "a@x.com" "pw" 11 [bob] [] alice
    (by decide) (by decide) (by decide) (by decide) (by decide) (by decide)

end ExpressApi
